import Mathlib

/-!
Shallow embedding of the construction Risk-Analysis-Tool (src/app.py) and
proofs about its Monte-Carlo cost-simulation core.

Numeric values are modelled with exact rationals (`ℚ`); the random number
generator is modelled as an oracle `rng : ℕ → ℚ` supplying the draw values
of the successive sampler calls (the distributional shape of the draws is
not modelled, only the argument validation and the array arithmetic, which
is what the claims below are about).
-/

namespace RiskAnalysis

/-- Model of `np.random.triangular(left, mode, right, size)` as called by
`monte_carlo_simulation` (src/app.py lines 76-78).  NumPy's `RandomState.triangular`
validates its scalar parameters before drawing: it raises
`ValueError("left > mode")` when `left > mode`, `ValueError("mode > right")`
when `mode > right`, and `ValueError("left == right")` when `left == right`
(the sampling formula divides by `right - left`); a negative `size` then fails
inside array allocation with `ValueError("negative dimensions are not allowed")`.
On success it returns an array of `size` draws, modelled here as the next
`size` values of the oracle `u`. -/
def np_random_triangular (left mode right : ℚ) (size : ℤ) (u : ℕ → ℚ) :
    Except String (List ℚ) :=
  if left > mode then .error "left > mode"
  else if mode > right then .error "mode > right"
  else if left = right then .error "left == right"
  else if size < 0 then .error "negative dimensions are not allowed"
  else .ok ((List.range size.toNat).map u)

/-- Elementwise NumPy sum of src/app.py line 80:
`total_costs = material_costs + labor_costs + other_expenses + equipment_cost + overhead_cost`
(the two scalars broadcast over the aligned arrays). -/
def total_base : List ℚ → List ℚ → List ℚ → ℚ → ℚ → List ℚ
  | m :: ms, l :: ls, o :: os, e, ov => (m + l + o + e + ov) :: total_base ms ls os e ov
  | _, _, _, _, _ => []

/-- The combined risk factor of src/app.py lines 82-85:
`inflation_factor * delay_factor * interest_factor` with
`inflation_factor = 1 + inflation_rate / 100`, etc. -/
def risk_factor (inflation_rate delay_risk interest_rate : ℚ) : ℚ :=
  (1 + inflation_rate / 100) * (1 + delay_risk / 100) * (1 + interest_rate / 100)

/-- The in-place broadcast multiply of src/app.py line 85:
`total_costs *= (inflation_factor * delay_factor * interest_factor)`. -/
def apply_risk_factors (costs : List ℚ) (inflation_rate delay_risk interest_rate : ℚ) :
    List ℚ :=
  costs.map (fun c => c * risk_factor inflation_rate delay_risk interest_rate)

/-- A pandas DataFrame built from a dict of equal-length columns, modelled as the
association list of (column name, column values) in dict insertion order. -/
abbrev DataFrame := List (String × List ℚ)

/-- Column lookup in a `DataFrame` by column name (empty when absent). -/
def dfColumn (df : DataFrame) (name : String) : List ℚ :=
  match df.find? (fun c => c.1 == name) with
  | some c => c.2
  | none => []

/-- Model of `monte_carlo_simulation` (src/app.py lines 75-96).  The three
sampler calls consume successive segments of the process-wide generator
stream `rng`.  The scalars `equipment_cost` and `overhead_cost` broadcast to
constant columns when the DataFrame is built (pandas broadcasts a scalar dict
value over the index of the array-valued entries).  Returns the pair
`(results_df, total_costs)` of line 96, or the NumPy error raised by a
sampler call. -/
def monte_carlo_simulation (material_mean material_std labor_mean labor_std
    other_mean other_std inflation_rate delay_risk interest_rate
    equipment_cost overhead_cost : ℚ) (rng : ℕ → ℚ)
    (num_simulations : ℤ := 10000) : Except String (DataFrame × List ℚ) := do
  let material_costs ← np_random_triangular (material_mean - material_std)
    material_mean (material_mean + material_std) num_simulations (fun i => rng i)
  let labor_costs ← np_random_triangular (labor_mean - labor_std)
    labor_mean (labor_mean + labor_std) num_simulations
    (fun i => rng (num_simulations.toNat + i))
  let other_expenses ← np_random_triangular (other_mean - other_std)
    other_mean (other_mean + other_std) num_simulations
    (fun i => rng (2 * num_simulations.toNat + i))
  let total_costs := total_base material_costs labor_costs other_expenses
    equipment_cost overhead_cost
  let total_costs := apply_risk_factors total_costs inflation_rate delay_risk interest_rate
  let results_df : DataFrame := [
    ("Material Costs", material_costs),
    ("Labor Costs", labor_costs),
    ("Other Expenses", other_expenses),
    ("Equipment Costs", List.replicate num_simulations.toNat equipment_cost),
    ("Overhead Costs", List.replicate num_simulations.toNat overhead_cost),
    ("Total Costs", total_costs)]
  return (results_df, total_costs)

/-- Arithmetic mean of a sample array (`results_df.mean()` columnwise /
the spec's `mean(TotalCost)`); `0` on the empty array (`0 / 0 = 0` in `ℚ`). -/
def listMean (xs : List ℚ) : ℚ := xs.sum / xs.length

/-- Minimum of a sample array, `0` on the empty array. -/
def listMin : List ℚ → ℚ
  | [] => 0
  | x :: xs => xs.foldl min x

/-- Maximum of a sample array, `0` on the empty array. -/
def listMax : List ℚ → ℚ
  | [] => 0
  | x :: xs => xs.foldl max x

/-- Linear interpolation between the order statistics of an already sorted
sample array `s` at the fractional index `(p/100) * (s.length - 1)`. -/
def interpOrderStat (s : List ℚ) (p : ℚ) : ℚ :=
  s.getD (Int.floor (p / 100 * ((s.length : ℚ) - 1))).toNat 0 +
    (p / 100 * ((s.length : ℚ) - 1) -
      Int.floor (p / 100 * ((s.length : ℚ) - 1))) *
    (s.getD ((Int.floor (p / 100 * ((s.length : ℚ) - 1))).toNat + 1) 0 -
      s.getD (Int.floor (p / 100 * ((s.length : ℚ) - 1))).toNat 0)

/-- Modelled from the spec: the Statistics Engine's percentile function is not
implemented in src/app.py (the app only draws a histogram and column means), so
it is modelled from the spec's words: "percentile(TotalCost, p) using linear
interpolation between order statistics (the conventional percentile
definition)".  The conventional definition: sort the samples, take the
fractional order-statistic index `(p/100) * (n-1)`, and linearly interpolate
between the neighbouring order statistics. -/
def percentile (xs : List ℚ) (p : ℚ) : ℚ :=
  interpOrderStat (List.insertionSort (fun a b => a ≤ b) xs) p

/-- `True` exactly on a successful (non-raising) result. -/
def exceptIsOk {ε α : Type} : Except ε α → Bool
  | .ok _ => true
  | .error _ => false

/-- Record returned by `fetch_material_prices` (src/app.py lines 12-25). -/
structure MaterialPrices where
  cement : ℚ
  steel : ℚ
  sand : ℚ
  bricks : ℚ
deriving DecidableEq

/-- Model of `fetch_material_prices` (src/app.py lines 12-25).  The HTTP GET
and JSON decode are modelled as a single `Except`-valued collaborator
response: `.error` is any exception inside the `try` block (connection
failure, bad JSON, ...); `.ok data` is the decoded JSON object, a partial map
from field name to numeric value.  `data.get(key, default)` is `(data key).getD default`.
Every failure path returns the hardcoded defaults. -/
def fetch_material_prices (resp : Except String (String → Option ℚ)) : MaterialPrices :=
  match resp with
  | .ok data => ⟨(data "cement").getD 500, (data "steel").getD 60000,
      (data "sand").getD 1200, (data "bricks").getD 8⟩
  | .error _ => ⟨500, 60000, 1200, 8⟩

/-- Model of `fetch_labor_rates` (src/app.py lines 27-35), same conventions as
`fetch_material_prices`. -/
def fetch_labor_rates (resp : Except String (String → Option ℚ)) : ℚ :=
  match resp with
  | .ok data => (data "average_labor_cost").getD 500
  | .error _ => 500

/-- Model of `fetch_weather_forecast` (src/app.py lines 37-45). -/
def fetch_weather_forecast (resp : Except String (String → Option String)) : String :=
  match resp with
  | .ok data => (data "forecast").getD "No recent weather updates."
  | .error _ => "No recent weather updates."

/-- Model of `fetch_regulatory_data` (src/app.py lines 47-55). -/
def fetch_regulatory_data (resp : Except String (String → Option String)) : String :=
  match resp with
  | .ok data => (data "regulatory_updates").getD "No recent updates."
  | .error _ => "No recent updates."

/-- Model of `fetch_legal_risks` (src/app.py lines 57-65). -/
def fetch_legal_risks (resp : Except String (String → Option String)) : String :=
  match resp with
  | .ok data => (data "legal_risks").getD "No legal risks detected."
  | .error _ => "No legal risks detected."

/-! ### Helper lemmas -/

theorem np_random_triangular_ok_length {left mode right : ℚ} {size : ℤ} {u : ℕ → ℚ}
    {xs : List ℚ} (h : np_random_triangular left mode right size u = .ok xs) :
    xs.length = size.toNat := by
  unfold np_random_triangular at h
  split_ifs at h
  cases h
  simp

theorem np_random_triangular_spread_ok_iff (c s : ℚ) (n : ℤ) (u : ℕ → ℚ) :
    exceptIsOk (np_random_triangular (c - s) c (c + s) n u) = true ↔ 0 < s ∧ 0 ≤ n := by
  unfold np_random_triangular
  split_ifs with h1 h2 h3 h4
  · simp only [exceptIsOk]
    constructor
    · intro h; cases h
    · rintro ⟨hs, -⟩; exfalso; linarith
  · simp only [exceptIsOk]
    constructor
    · intro h; cases h
    · rintro ⟨hs, -⟩; exfalso; linarith
  · simp only [exceptIsOk]
    constructor
    · intro h; cases h
    · rintro ⟨hs, -⟩
      have : s = 0 := by linarith
      exact absurd this (by intro h0; exact absurd hs (by rw [h0] at hs ⊢; exact lt_irrefl 0))
  · simp only [exceptIsOk]
    constructor
    · intro h; cases h
    · rintro ⟨-, hn⟩; exact absurd h4 (not_lt.mpr hn)
  · simp only [exceptIsOk, true_iff]
    refine ⟨?_, not_lt.mp h4⟩
    rcases lt_trichotomy s 0 with h | h | h
    · exact absurd (by linarith : c - s > c) h1
    · exact absurd (by rw [h]; ring) h3
    · exact h

theorem np_random_triangular_spread_zero (c : ℚ) (n : ℤ) (u : ℕ → ℚ) :
    np_random_triangular (c - 0) c (c + 0) n u = .error "left == right" := by
  unfold np_random_triangular
  split_ifs with h1 h2 h3
  · exact absurd h1 (by norm_num)
  · exact absurd h2 (by norm_num)
  · rfl
  · exact absurd (by norm_num : c - 0 = c + 0) h3
  · exact absurd (by norm_num : c - 0 = c + 0) h3

theorem np_random_triangular_pos_spread (c s : ℚ) (n : ℤ) (u : ℕ → ℚ)
    (hs : 0 < s) (hn : 0 ≤ n) :
    np_random_triangular (c - s) c (c + s) n u =
      .ok ((List.range n.toNat).map u) := by
  unfold np_random_triangular
  split_ifs with h1 h2 h3 h4
  · exact absurd h1 (by linarith)
  · exact absurd h2 (by linarith)
  · exact absurd h3 (by intro h; linarith [sub_eq_iff_eq_add.mp h])
  · exact absurd h4 (by omega)
  · rfl

theorem total_base_length (ms ls os : List ℚ) (e ov : ℚ) :
    (total_base ms ls os e ov).length = min ms.length (min ls.length os.length) := by
  induction ms generalizing ls os with
  | nil => simp [total_base]
  | cons m ms ih =>
    cases ls with
    | nil => simp [total_base]
    | cons l ls =>
      cases os with
      | nil => simp [total_base]
      | cons o os =>
        simp [total_base, ih, Nat.succ_min_succ]

theorem total_base_getD (ms ls os : List ℚ) (e ov : ℚ) (i : ℕ)
    (hm : i < ms.length) (hl : i < ls.length) (ho : i < os.length) :
    (total_base ms ls os e ov).getD i 0 =
      ms.getD i 0 + ls.getD i 0 + os.getD i 0 + e + ov := by
  induction ms generalizing ls os i with
  | nil => simp at hm
  | cons m ms ih =>
    cases ls with
    | nil => simp at hl
    | cons l ls =>
      cases os with
      | nil => simp at ho
      | cons o os =>
        cases i with
        | zero => simp [total_base]
        | succ i =>
          simp only [total_base, List.getD_cons_succ]
          exact ih ls os i (by simpa using hm) (by simpa using hl) (by simpa using ho)

theorem apply_risk_factors_length (costs : List ℚ) (ir dr itr : ℚ) :
    (apply_risk_factors costs ir dr itr).length = costs.length := by
  simp [apply_risk_factors]

theorem apply_risk_factors_getD (costs : List ℚ) (ir dr itr : ℚ) (i : ℕ)
    (hi : i < costs.length) :
    (apply_risk_factors costs ir dr itr).getD i 0 =
      costs.getD i 0 * risk_factor ir dr itr := by
  unfold apply_risk_factors
  rw [List.getD_eq_getElem _ _ (by simpa using hi), List.getD_eq_getElem _ _ hi,
    List.getElem_map]

theorem listMean_map_mul (xs : List ℚ) (k : ℚ) :
    listMean (xs.map (fun c => c * k)) = listMean xs * k := by
  unfold listMean
  rw [List.length_map, List.sum_map_mul_right]
  simp only [List.map_id']
  ring

theorem monte_carlo_simulation_ok {material_mean material_std labor_mean labor_std
    other_mean other_std inflation_rate delay_risk interest_rate
    equipment_cost overhead_cost : ℚ} {rng : ℕ → ℚ} {num_simulations : ℤ}
    {df : DataFrame} {totals : List ℚ}
    (h : monte_carlo_simulation material_mean material_std labor_mean labor_std
      other_mean other_std inflation_rate delay_risk interest_rate
      equipment_cost overhead_cost rng num_simulations = .ok (df, totals)) :
    ∃ mat lab oth : List ℚ,
      np_random_triangular (material_mean - material_std) material_mean
        (material_mean + material_std) num_simulations (fun i => rng i) = .ok mat ∧
      np_random_triangular (labor_mean - labor_std) labor_mean
        (labor_mean + labor_std) num_simulations
        (fun i => rng (num_simulations.toNat + i)) = .ok lab ∧
      np_random_triangular (other_mean - other_std) other_mean
        (other_mean + other_std) num_simulations
        (fun i => rng (2 * num_simulations.toNat + i)) = .ok oth ∧
      totals = apply_risk_factors
        (total_base mat lab oth equipment_cost overhead_cost)
        inflation_rate delay_risk interest_rate ∧
      df = [("Material Costs", mat), ("Labor Costs", lab), ("Other Expenses", oth),
        ("Equipment Costs", List.replicate num_simulations.toNat equipment_cost),
        ("Overhead Costs", List.replicate num_simulations.toNat overhead_cost),
        ("Total Costs", totals)] := by
  unfold monte_carlo_simulation at h
  cases h1 : np_random_triangular (material_mean - material_std) material_mean
      (material_mean + material_std) num_simulations (fun i => rng i) with
  | error e => rw [h1] at h; simp [Bind.bind, Except.bind] at h
  | ok mat =>
    rw [h1] at h
    cases h2 : np_random_triangular (labor_mean - labor_std) labor_mean
        (labor_mean + labor_std) num_simulations
        (fun i => rng (num_simulations.toNat + i)) with
    | error e => rw [h2] at h; simp [Bind.bind, Except.bind] at h
    | ok lab =>
      rw [h2] at h
      cases h3 : np_random_triangular (other_mean - other_std) other_mean
          (other_mean + other_std) num_simulations
          (fun i => rng (2 * num_simulations.toNat + i)) with
      | error e => rw [h3] at h; simp [Bind.bind, Except.bind] at h
      | ok oth =>
        rw [h3] at h
        simp only [Bind.bind, Except.bind, pure, Except.pure, Except.ok.injEq,
          Prod.mk.injEq] at h
        obtain ⟨hdf, htot⟩ := h
        subst htot
        exact ⟨mat, lab, oth, rfl, rfl, rfl, rfl, hdf.symm⟩

theorem foldl_min_spec (xs : List ℚ) : ∀ x : ℚ,
    xs.foldl min x ∈ x :: xs ∧ ∀ y ∈ x :: xs, xs.foldl min x ≤ y := by
  induction xs with
  | nil =>
    intro x
    refine ⟨List.mem_cons_self _ _, ?_⟩
    intro y hy
    rcases List.mem_cons.mp hy with rfl | h
    · exact le_refl _
    · simp at h
  | cons a as ih =>
    intro x
    obtain ⟨hmem, hle⟩ := ih (min x a)
    simp only [List.foldl_cons]
    constructor
    · rcases List.mem_cons.mp hmem with heq | hmem'
      · rw [heq]
        rcases min_choice x a with hc | hc
        · rw [hc]; exact List.mem_cons_self _ _
        · rw [hc]; exact List.mem_cons_of_mem _ (List.mem_cons_self _ _)
      · exact List.mem_cons_of_mem _ (List.mem_cons_of_mem _ hmem')
    · intro y hy
      rcases List.mem_cons.mp hy with rfl | hy'
      · exact le_trans (hle _ (List.mem_cons_self _ _)) (min_le_left _ _)
      · rcases List.mem_cons.mp hy' with rfl | hy''
        · exact le_trans (hle _ (List.mem_cons_self _ _)) (min_le_right _ _)
        · exact hle _ (List.mem_cons_of_mem _ hy'')

theorem foldl_max_spec (xs : List ℚ) : ∀ x : ℚ,
    xs.foldl max x ∈ x :: xs ∧ ∀ y ∈ x :: xs, y ≤ xs.foldl max x := by
  induction xs with
  | nil =>
    intro x
    refine ⟨List.mem_cons_self _ _, ?_⟩
    intro y hy
    rcases List.mem_cons.mp hy with rfl | h
    · exact le_refl _
    · simp at h
  | cons a as ih =>
    intro x
    obtain ⟨hmem, hge⟩ := ih (max x a)
    simp only [List.foldl_cons]
    constructor
    · rcases List.mem_cons.mp hmem with heq | hmem'
      · rw [heq]
        rcases max_choice x a with hc | hc
        · rw [hc]; exact List.mem_cons_self _ _
        · rw [hc]; exact List.mem_cons_of_mem _ (List.mem_cons_self _ _)
      · exact List.mem_cons_of_mem _ (List.mem_cons_of_mem _ hmem')
    · intro y hy
      rcases List.mem_cons.mp hy with rfl | hy'
      · exact le_trans (le_max_left _ _) (hge _ (List.mem_cons_self _ _))
      · rcases List.mem_cons.mp hy' with rfl | hy''
        · exact le_trans (le_max_right _ _) (hge _ (List.mem_cons_self _ _))
        · exact hge _ (List.mem_cons_of_mem _ hy'')

theorem listMin_spec (xs : List ℚ) (hne : xs ≠ []) :
    listMin xs ∈ xs ∧ ∀ y ∈ xs, listMin xs ≤ y := by
  cases xs with
  | nil => exact absurd rfl hne
  | cons x t => exact foldl_min_spec t x

theorem listMax_spec (xs : List ℚ) (hne : xs ≠ []) :
    listMax xs ∈ xs ∧ ∀ y ∈ xs, y ≤ listMax xs := by
  cases xs with
  | nil => exact absurd rfl hne
  | cons x t => exact foldl_max_spec t x

theorem sorted_getD_zero_le {s : List ℚ} (hs : List.Sorted (fun a b => a ≤ b) s) :
    ∀ y ∈ s, s.getD 0 0 ≤ y := by
  intro y hy
  cases s with
  | nil => simp at hy
  | cons b t =>
    rw [List.getD_cons_zero]
    rcases List.mem_cons.mp hy with rfl | hy'
    · exact le_refl _
    · exact List.rel_of_sorted_cons hs y hy'

theorem sorted_le_getD_last : ∀ s : List ℚ, List.Sorted (fun a b => a ≤ b) s →
    ∀ y ∈ s, y ≤ s.getD (s.length - 1) 0 := by
  intro s
  induction s with
  | nil => intro _ y hy; simp at hy
  | cons b t ih =>
    intro hs y hy
    cases t with
    | nil =>
      rcases List.mem_cons.mp hy with rfl | h
      · exact le_refl _
      · simp at h
    | cons c u =>
      have hs' : List.Sorted (fun a b => a ≤ b) (c :: u) := hs.of_cons
      have hlast : (b :: c :: u).getD ((b :: c :: u).length - 1) 0 =
          (c :: u).getD ((c :: u).length - 1) 0 := by
        simp [List.getD_cons_succ]
      rw [hlast]
      rcases List.mem_cons.mp hy with rfl | hy'
      · exact le_trans (List.rel_of_sorted_cons hs c (List.mem_cons_self _ _))
          (ih hs' c (List.mem_cons_self _ _))
      · exact ih hs' y hy'

theorem interpOrderStat_zero (s : List ℚ) : interpOrderStat s 0 = s.getD 0 0 := by
  unfold interpOrderStat
  norm_num

theorem interpOrderStat_hundred (s : List ℚ) (hlen : 1 ≤ s.length) :
    interpOrderStat s 100 = s.getD (s.length - 1) 0 := by
  unfold interpOrderStat
  have h1 : (100:ℚ) / 100 * ((s.length : ℚ) - 1) = ((s.length - 1 : ℕ) : ℚ) := by
    rw [Nat.cast_sub hlen]
    push_cast
    ring
  rw [h1, Int.floor_natCast]
  simp

theorem percentile_zero_eq (xs : List ℚ) :
    percentile xs 0 = (List.insertionSort (fun a b => a ≤ b) xs).getD 0 0 :=
  interpOrderStat_zero _

theorem percentile_hundred_eq (xs : List ℚ) (hne : xs ≠ []) :
    percentile xs 100 =
      (List.insertionSort (fun a b => a ≤ b) xs).getD
        ((List.insertionSort (fun a b => a ≤ b) xs).length - 1) 0 :=
  interpOrderStat_hundred _ (by
    rw [List.length_insertionSort]
    exact List.length_pos.mpr hne)

theorem monte_carlo_simulation_example :
    monte_carlo_simulation 100 10 50 5 20 2 0 0 0 0 0 (fun _ => 0) 1 =
      .ok ([("Material Costs", [0]), ("Labor Costs", [0]), ("Other Expenses", [0]),
        ("Equipment Costs", [0]), ("Overhead Costs", [0]), ("Total Costs", [0])],
        [0]) := by
  unfold monte_carlo_simulation
  rw [np_random_triangular_pos_spread 100 10 1 _ (by norm_num) (by norm_num),
      np_random_triangular_pos_spread 50 5 1 _ (by norm_num) (by norm_num),
      np_random_triangular_pos_spread 20 2 1 _ (by norm_num) (by norm_num)]
  norm_num [Bind.bind, Except.bind, pure, Except.pure, total_base, apply_risk_factors,
    risk_factor, List.replicate, List.range_succ, List.range_zero]

/-! ### Claims -/

/-- C3 (code bug): the spec requires triangular sampling with spread 0 to
return a constant array equal to the central value, but
`np.random.triangular(c - 0, c, c + 0, n)` raises `ValueError("left == right")`,
so every `monte_carlo_simulation` call with a zero spread raises instead of
returning a table.  Shown at central value 100, spread 0, n = 10, and for a
full simulation call with `material_std = 0`. -/
theorem C3_spread_zero_raises :
    np_random_triangular (100 - 0) 100 (100 + 0) 10 (fun _ => 0) =
      .error "left == right" ∧
    exceptIsOk (monte_carlo_simulation 100 0 50 5 20 2 5 10 5 0 0
      (fun _ => 0) 10) = false := by
  refine ⟨np_random_triangular_spread_zero 100 10 _, ?_⟩
  unfold monte_carlo_simulation
  rw [np_random_triangular_spread_zero 100 10 _]
  rfl

/-- C4 counterexample: the claim says the sampler fails exactly when the
spread is negative or the sample count is below 1.  But at spread 0 with
n = 5 (claim: success) the sampler raises `ValueError("left == right")`, and at
spread 10 with n = 0 (claim: failure) it succeeds, returning an empty array. -/
theorem C4_counterexample :
    exceptIsOk (np_random_triangular (100 - 0) 100 (100 + 0) 5 (fun _ => 0)) = false ∧
    np_random_triangular (100 - 10) 100 (100 + 10) 0 (fun _ => 0) = .ok [] := by
  constructor
  · rw [np_random_triangular_spread_zero 100 5 _]
    rfl
  · rw [np_random_triangular_pos_spread 100 10 0 _ (by norm_num) le_rfl]
    rfl

/-- C4 (amended): the triangular sampler, called as
`np.random.triangular(c - s, c, c + s, n)`, succeeds exactly when the spread
`s` is strictly positive and the sample count `n` is nonnegative; it raises
for `s < 0` (`left > mode`), for `s = 0` (`left == right`), and for `n < 0`
(negative dimensions); `n = 0` succeeds with an empty array, and the code has
no separate construction-time parameter validation. -/
theorem C4_sampler_success_iff (c s : ℚ) (n : ℤ) (u : ℕ → ℚ) :
    exceptIsOk (np_random_triangular (c - s) c (c + s) n u) = true ↔
      0 < s ∧ 0 ≤ n :=
  np_random_triangular_spread_ok_iff c s n u

/-- C5 counterexample: with all component draws and fixed costs zero (reachable
from valid parameters: all means, spreads and fixed costs 0), raising the
inflation rate from 0 to 10 leaves `mean(TotalCost)` at 0, not strictly
larger. -/
theorem C5_counterexample :
    ¬ listMean (apply_risk_factors (total_base [0] [0] [0] 0 0) 0 0 0) <
        listMean (apply_risk_factors (total_base [0] [0] [0] 0 0) 10 0 0) := by
  have h : ∀ ir : ℚ, listMean (apply_risk_factors (total_base [0] [0] [0] 0 0) ir 0 0) = 0 := by
    intro ir
    simp [total_base, apply_risk_factors, listMean]
  rw [h 0, h 10]
  exact lt_irrefl 0

/-- C5 (amended): holding the component draws, fixed costs, delay risk and
interest rate fixed, a strictly larger inflation rate yields a strictly larger
`mean(TotalCost)`, provided the mean of the pre-risk base cost times the delay
and interest factors is strictly positive (in particular whenever the draws
and fixed costs are nonnegative with positive mean and delay and interest are
above -100). -/
theorem C5_inflation_monotonicity (mat lab oth : List ℚ)
    (equipment_cost overhead_cost delay_risk interest_rate i1 i2 : ℚ)
    (h12 : i1 < i2)
    (hpos : 0 < listMean (total_base mat lab oth equipment_cost overhead_cost) *
      ((1 + delay_risk / 100) * (1 + interest_rate / 100))) :
    listMean (apply_risk_factors (total_base mat lab oth equipment_cost overhead_cost)
        i1 delay_risk interest_rate) <
      listMean (apply_risk_factors (total_base mat lab oth equipment_cost overhead_cost)
        i2 delay_risk interest_rate) := by
  unfold apply_risk_factors
  rw [listMean_map_mul, listMean_map_mul]
  unfold risk_factor
  nlinarith [mul_pos hpos (show (0:ℚ) < (i2 - i1) / 100 by linarith)]

/-- C5 witness: the amended monotonicity at a concrete input (a single draw of
100, everything else 0, inflation raised from 0 to 10). -/
theorem C5_witness :
    ((0:ℚ) < 10) ∧
    (0 < listMean (total_base [100] [0] [0] 0 0) * ((1 + 0 / 100) * (1 + 0 / 100))) ∧
    listMean (apply_risk_factors (total_base [100] [0] [0] 0 0) 0 0 0) <
      listMean (apply_risk_factors (total_base [100] [0] [0] 0 0) 10 0 0) :=
  ⟨by norm_num, by norm_num [total_base, listMean],
    C5_inflation_monotonicity [100] [0] [0] 0 0 0 0 0 10 (by norm_num)
      (by norm_num [total_base, listMean])⟩

/-- C9: every external data fetcher absorbs fetch and JSON failures and
returns its hardcoded default (cement 500, steel 60000, sand 1200, bricks 8;
labor rate 500; and the three string fetchers' default messages): shown for an
arbitrary exception inside the try block, and for well-formed JSON missing the
expected key.  The fetchers are total functions into plain values, so no
exception ever propagates to the caller. -/
theorem C9_fetchers_default_on_failure (e : String) :
    fetch_material_prices (.error e) = ⟨500, 60000, 1200, 8⟩ ∧
    fetch_labor_rates (.error e) = 500 ∧
    fetch_weather_forecast (.error e) = "No recent weather updates." ∧
    fetch_regulatory_data (.error e) = "No recent updates." ∧
    fetch_legal_risks (.error e) = "No legal risks detected." ∧
    fetch_material_prices (.ok fun _ => none) = ⟨500, 60000, 1200, 8⟩ ∧
    fetch_labor_rates (.ok fun _ => none) = 500 :=
  ⟨rfl, rfl, rfl, rfl, rfl, rfl, rfl⟩

/-- C1: in every successful `monte_carlo_simulation` run, each entry of the
returned total-costs array equals (material draw + labor draw + other draw +
equipment_cost + overhead_cost) multiplied by
(1 + inflation_rate/100) * (1 + delay_risk/100) * (1 + interest_rate/100)
(exactly, in the rational model, hence within any relative tolerance), where
the draws are the corresponding entries of the Material/Labor/Other columns;
and the Total Costs column agrees with the returned array entrywise. -/
theorem C1_total_cost_formula (material_mean material_std labor_mean labor_std
    other_mean other_std inflation_rate delay_risk interest_rate
    equipment_cost overhead_cost : ℚ) (rng : ℕ → ℚ) (num_simulations : ℤ)
    (df : DataFrame) (totals : List ℚ)
    (h : monte_carlo_simulation material_mean material_std labor_mean labor_std
      other_mean other_std inflation_rate delay_risk interest_rate
      equipment_cost overhead_cost rng num_simulations = .ok (df, totals))
    (i : ℕ) (hi : i < totals.length) :
    totals.getD i 0 =
      ((dfColumn df "Material Costs").getD i 0 + (dfColumn df "Labor Costs").getD i 0 +
        (dfColumn df "Other Expenses").getD i 0 + equipment_cost + overhead_cost) *
      ((1 + inflation_rate / 100) * (1 + delay_risk / 100) * (1 + interest_rate / 100)) ∧
    (dfColumn df "Total Costs").getD i 0 = totals.getD i 0 := by
  obtain ⟨mat, lab, oth, h1, h2, h3, htot, hdf⟩ := monte_carlo_simulation_ok h
  have lm := np_random_triangular_ok_length h1
  have ll := np_random_triangular_ok_length h2
  have lo := np_random_triangular_ok_length h3
  have hbase : i < (total_base mat lab oth equipment_cost overhead_cost).length := by
    rw [htot, apply_risk_factors_length] at hi
    exact hi
  have hbl := total_base_length mat lab oth equipment_cost overhead_cost
  rw [lm, ll, lo, min_self, min_self] at hbl
  have hn : i < num_simulations.toNat := by rw [hbl] at hbase; exact hbase
  have him : i < mat.length := by rw [lm]; exact hn
  have hil : i < lab.length := by rw [ll]; exact hn
  have hio : i < oth.length := by rw [lo]; exact hn
  have hmat : dfColumn df "Material Costs" = mat := by rw [hdf]; simp [dfColumn]
  have hlab : dfColumn df "Labor Costs" = lab := by rw [hdf]; simp [dfColumn]
  have hoth : dfColumn df "Other Expenses" = oth := by rw [hdf]; simp [dfColumn]
  have htc : dfColumn df "Total Costs" = totals := by rw [hdf]; simp [dfColumn]
  rw [hmat, hlab, hoth, htc, htot,
    apply_risk_factors_getD _ _ _ _ _ hbase,
    total_base_getD _ _ _ _ _ _ him hil hio]
  exact ⟨rfl, rfl⟩

/-- C2: in every successful `monte_carlo_simulation` run with a nonnegative
sample count, every column of the returned table and the returned total-costs
array have exactly `num_simulations` entries; and omitting the sample-count
argument is the same call as passing 10000. -/
theorem C2_row_count_and_default (material_mean material_std labor_mean labor_std
    other_mean other_std inflation_rate delay_risk interest_rate
    equipment_cost overhead_cost : ℚ) (rng : ℕ → ℚ) (num_simulations : ℤ)
    (df : DataFrame) (totals : List ℚ)
    (hn : 0 ≤ num_simulations)
    (h : monte_carlo_simulation material_mean material_std labor_mean labor_std
      other_mean other_std inflation_rate delay_risk interest_rate
      equipment_cost overhead_cost rng num_simulations = .ok (df, totals)) :
    (∀ col ∈ df, (col.2.length : ℤ) = num_simulations) ∧
    (totals.length : ℤ) = num_simulations ∧
    monte_carlo_simulation material_mean material_std labor_mean labor_std
      other_mean other_std inflation_rate delay_risk interest_rate
      equipment_cost overhead_cost rng =
    monte_carlo_simulation material_mean material_std labor_mean labor_std
      other_mean other_std inflation_rate delay_risk interest_rate
      equipment_cost overhead_cost rng 10000 := by
  obtain ⟨mat, lab, oth, h1, h2, h3, htot, hdf⟩ := monte_carlo_simulation_ok h
  have lm := np_random_triangular_ok_length h1
  have ll := np_random_triangular_ok_length h2
  have lo := np_random_triangular_ok_length h3
  have hcast : (num_simulations.toNat : ℤ) = num_simulations := Int.toNat_of_nonneg hn
  have hTlen : (totals.length : ℤ) = num_simulations := by
    rw [htot, apply_risk_factors_length, total_base_length, lm, ll, lo,
      min_self, min_self, hcast]
  subst hdf
  refine ⟨?_, hTlen, rfl⟩
  intro col hcol
  simp only [List.mem_cons, List.not_mem_nil, or_false] at hcol
  rcases hcol with rfl | rfl | rfl | rfl | rfl | rfl
  · show ((mat.length : ℤ) = num_simulations)
    rw [lm]; exact hcast
  · show ((lab.length : ℤ) = num_simulations)
    rw [ll]; exact hcast
  · show ((oth.length : ℤ) = num_simulations)
    rw [lo]; exact hcast
  · show (((List.replicate num_simulations.toNat equipment_cost).length : ℤ) =
      num_simulations)
    rw [List.length_replicate]; exact hcast
  · show (((List.replicate num_simulations.toNat overhead_cost).length : ℤ) =
      num_simulations)
    rw [List.length_replicate]; exact hcast
  · exact hTlen

/-- C6: in every successful `monte_carlo_simulation` run with a nonnegative
sample count, the three per-component sample columns (material, labor, other)
all have identical length equal to the sample count, so aligned elementwise
addition in the aggregation step never sees arrays of differing length. -/
theorem C6_aligned_sample_arrays (material_mean material_std labor_mean labor_std
    other_mean other_std inflation_rate delay_risk interest_rate
    equipment_cost overhead_cost : ℚ) (rng : ℕ → ℚ) (num_simulations : ℤ)
    (df : DataFrame) (totals : List ℚ)
    (hn : 0 ≤ num_simulations)
    (h : monte_carlo_simulation material_mean material_std labor_mean labor_std
      other_mean other_std inflation_rate delay_risk interest_rate
      equipment_cost overhead_cost rng num_simulations = .ok (df, totals)) :
    ((dfColumn df "Material Costs").length : ℤ) = num_simulations ∧
    ((dfColumn df "Labor Costs").length : ℤ) = num_simulations ∧
    ((dfColumn df "Other Expenses").length : ℤ) = num_simulations := by
  obtain ⟨mat, lab, oth, h1, h2, h3, htot, hdf⟩ := monte_carlo_simulation_ok h
  have lm := np_random_triangular_ok_length h1
  have ll := np_random_triangular_ok_length h2
  have lo := np_random_triangular_ok_length h3
  have hcast : (num_simulations.toNat : ℤ) = num_simulations := Int.toNat_of_nonneg hn
  have hmat : dfColumn df "Material Costs" = mat := by rw [hdf]; simp [dfColumn]
  have hlab : dfColumn df "Labor Costs" = lab := by rw [hdf]; simp [dfColumn]
  have hoth : dfColumn df "Other Expenses" = oth := by rw [hdf]; simp [dfColumn]
  rw [hmat, hlab, hoth, lm, ll, lo]
  exact ⟨hcast, hcast, hcast⟩

/-- C7: the table returned by every successful run has exactly the columns
Material Costs, Labor Costs, Other Expenses, Equipment Costs, Overhead Costs,
Total Costs, in that fixed order, whatever the input parameters. -/
theorem C7_column_names (material_mean material_std labor_mean labor_std
    other_mean other_std inflation_rate delay_risk interest_rate
    equipment_cost overhead_cost : ℚ) (rng : ℕ → ℚ) (num_simulations : ℤ)
    (df : DataFrame) (totals : List ℚ)
    (h : monte_carlo_simulation material_mean material_std labor_mean labor_std
      other_mean other_std inflation_rate delay_risk interest_rate
      equipment_cost overhead_cost rng num_simulations = .ok (df, totals)) :
    df.map Prod.fst = ["Material Costs", "Labor Costs", "Other Expenses",
      "Equipment Costs", "Overhead Costs", "Total Costs"] := by
  obtain ⟨mat, lab, oth, h1, h2, h3, htot, hdf⟩ := monte_carlo_simulation_ok h
  rw [hdf]
  rfl

/-- C10: applying the risk factors changes only the Total Costs column: the
Material/Labor/Other columns of the returned table are exactly the raw sampler
outputs (no factor applied), the Equipment and Overhead columns hold the
unmodified input scalars in every row, and the separately returned total-costs
array is exactly the Total Costs column. -/
theorem C10_risk_factors_frame (material_mean material_std labor_mean labor_std
    other_mean other_std inflation_rate delay_risk interest_rate
    equipment_cost overhead_cost : ℚ) (rng : ℕ → ℚ) (num_simulations : ℤ)
    (df : DataFrame) (totals : List ℚ)
    (h : monte_carlo_simulation material_mean material_std labor_mean labor_std
      other_mean other_std inflation_rate delay_risk interest_rate
      equipment_cost overhead_cost rng num_simulations = .ok (df, totals)) :
    (∃ mat, np_random_triangular (material_mean - material_std) material_mean
      (material_mean + material_std) num_simulations (fun i => rng i) = .ok mat ∧
      dfColumn df "Material Costs" = mat) ∧
    (∃ lab, np_random_triangular (labor_mean - labor_std) labor_mean
      (labor_mean + labor_std) num_simulations
      (fun i => rng (num_simulations.toNat + i)) = .ok lab ∧
      dfColumn df "Labor Costs" = lab) ∧
    (∃ oth, np_random_triangular (other_mean - other_std) other_mean
      (other_mean + other_std) num_simulations
      (fun i => rng (2 * num_simulations.toNat + i)) = .ok oth ∧
      dfColumn df "Other Expenses" = oth) ∧
    dfColumn df "Equipment Costs" =
      List.replicate num_simulations.toNat equipment_cost ∧
    dfColumn df "Overhead Costs" =
      List.replicate num_simulations.toNat overhead_cost ∧
    dfColumn df "Total Costs" = totals := by
  obtain ⟨mat, lab, oth, h1, h2, h3, htot, hdf⟩ := monte_carlo_simulation_ok h
  subst hdf
  refine ⟨⟨mat, h1, ?_⟩, ⟨lab, h2, ?_⟩, ⟨oth, h3, ?_⟩, ?_, ?_, ?_⟩ <;> simp [dfColumn]

/-- C1 witness: the total-cost formula at a concrete run (one sample, all
draws 0, all risk rates 0). -/
theorem C1_witness :
    (monte_carlo_simulation 100 10 50 5 20 2 0 0 0 0 0 (fun _ => 0) 1 =
      .ok ([("Material Costs", [0]), ("Labor Costs", [0]), ("Other Expenses", [0]),
        ("Equipment Costs", [0]), ("Overhead Costs", [0]), ("Total Costs", [0])],
        [0])) ∧
    (0 < ([0] : List ℚ).length) ∧
    (([0] : List ℚ).getD 0 0 =
      ((dfColumn [("Material Costs", [0]), ("Labor Costs", [0]), ("Other Expenses", [0]),
          ("Equipment Costs", [0]), ("Overhead Costs", [0]), ("Total Costs", [0])]
          "Material Costs").getD 0 0 +
        (dfColumn [("Material Costs", [0]), ("Labor Costs", [0]), ("Other Expenses", [0]),
          ("Equipment Costs", [0]), ("Overhead Costs", [0]), ("Total Costs", [0])]
          "Labor Costs").getD 0 0 +
        (dfColumn [("Material Costs", [0]), ("Labor Costs", [0]), ("Other Expenses", [0]),
          ("Equipment Costs", [0]), ("Overhead Costs", [0]), ("Total Costs", [0])]
          "Other Expenses").getD 0 0 + 0 + 0) *
      ((1 + 0 / 100) * (1 + 0 / 100) * (1 + 0 / 100)) ∧
    (dfColumn [("Material Costs", [0]), ("Labor Costs", [0]), ("Other Expenses", [0]),
        ("Equipment Costs", [0]), ("Overhead Costs", [0]), ("Total Costs", [0])]
        "Total Costs").getD 0 0 = ([0] : List ℚ).getD 0 0) :=
  ⟨monte_carlo_simulation_example, by simp,
    C1_total_cost_formula 100 10 50 5 20 2 0 0 0 0 0 (fun _ => 0) 1
      [("Material Costs", [0]), ("Labor Costs", [0]), ("Other Expenses", [0]),
        ("Equipment Costs", [0]), ("Overhead Costs", [0]), ("Total Costs", [0])] [0]
      monte_carlo_simulation_example 0 (by simp)⟩

/-- C2 witness: row count and default sample count at a concrete run. -/
theorem C2_witness :
    (0 ≤ (1:ℤ)) ∧
    (monte_carlo_simulation 100 10 50 5 20 2 0 0 0 0 0 (fun _ => 0) 1 =
      .ok ([("Material Costs", [0]), ("Labor Costs", [0]), ("Other Expenses", [0]),
        ("Equipment Costs", [0]), ("Overhead Costs", [0]), ("Total Costs", [0])],
        [0])) ∧
    ((∀ col ∈ ([("Material Costs", [0]), ("Labor Costs", [0]), ("Other Expenses", [0]),
        ("Equipment Costs", [0]), ("Overhead Costs", [0]),
        ("Total Costs", [0])] : DataFrame), (col.2.length : ℤ) = 1) ∧
      ((([0] : List ℚ).length : ℤ) = 1) ∧
      monte_carlo_simulation 100 10 50 5 20 2 0 0 0 0 0 (fun _ => 0) =
        monte_carlo_simulation 100 10 50 5 20 2 0 0 0 0 0 (fun _ => 0) 10000) :=
  ⟨by norm_num, monte_carlo_simulation_example,
    C2_row_count_and_default 100 10 50 5 20 2 0 0 0 0 0 (fun _ => 0) 1
      [("Material Costs", [0]), ("Labor Costs", [0]), ("Other Expenses", [0]),
        ("Equipment Costs", [0]), ("Overhead Costs", [0]), ("Total Costs", [0])] [0]
      (by norm_num) monte_carlo_simulation_example⟩

/-- C6 witness: the three component columns share the sample count at a
concrete run. -/
theorem C6_witness :
    (0 ≤ (1:ℤ)) ∧
    (monte_carlo_simulation 100 10 50 5 20 2 0 0 0 0 0 (fun _ => 0) 1 =
      .ok ([("Material Costs", [0]), ("Labor Costs", [0]), ("Other Expenses", [0]),
        ("Equipment Costs", [0]), ("Overhead Costs", [0]), ("Total Costs", [0])],
        [0])) ∧
    (((dfColumn [("Material Costs", [0]), ("Labor Costs", [0]), ("Other Expenses", [0]),
        ("Equipment Costs", [0]), ("Overhead Costs", [0]), ("Total Costs", [0])]
        "Material Costs").length : ℤ) = 1 ∧
      ((dfColumn [("Material Costs", [0]), ("Labor Costs", [0]), ("Other Expenses", [0]),
        ("Equipment Costs", [0]), ("Overhead Costs", [0]), ("Total Costs", [0])]
        "Labor Costs").length : ℤ) = 1 ∧
      ((dfColumn [("Material Costs", [0]), ("Labor Costs", [0]), ("Other Expenses", [0]),
        ("Equipment Costs", [0]), ("Overhead Costs", [0]), ("Total Costs", [0])]
        "Other Expenses").length : ℤ) = 1) :=
  ⟨by norm_num, monte_carlo_simulation_example,
    C6_aligned_sample_arrays 100 10 50 5 20 2 0 0 0 0 0 (fun _ => 0) 1
      [("Material Costs", [0]), ("Labor Costs", [0]), ("Other Expenses", [0]),
        ("Equipment Costs", [0]), ("Overhead Costs", [0]), ("Total Costs", [0])] [0]
      (by norm_num) monte_carlo_simulation_example⟩

/-- C7 witness: the fixed column names, in order, at a concrete run. -/
theorem C7_witness :
    (monte_carlo_simulation 100 10 50 5 20 2 0 0 0 0 0 (fun _ => 0) 1 =
      .ok ([("Material Costs", [0]), ("Labor Costs", [0]), ("Other Expenses", [0]),
        ("Equipment Costs", [0]), ("Overhead Costs", [0]), ("Total Costs", [0])],
        [0])) ∧
    ([("Material Costs", ([0] : List ℚ)), ("Labor Costs", [0]), ("Other Expenses", [0]),
        ("Equipment Costs", [0]), ("Overhead Costs", [0]),
        ("Total Costs", [0])].map Prod.fst =
      ["Material Costs", "Labor Costs", "Other Expenses", "Equipment Costs",
        "Overhead Costs", "Total Costs"]) :=
  ⟨monte_carlo_simulation_example,
    C7_column_names 100 10 50 5 20 2 0 0 0 0 0 (fun _ => 0) 1
      [("Material Costs", [0]), ("Labor Costs", [0]), ("Other Expenses", [0]),
        ("Equipment Costs", [0]), ("Overhead Costs", [0]), ("Total Costs", [0])] [0]
      monte_carlo_simulation_example⟩

/-- C10 witness: the frame conditions at a concrete run. -/
theorem C10_witness :
    (monte_carlo_simulation 100 10 50 5 20 2 0 0 0 0 0 (fun _ => 0) 1 =
      .ok ([("Material Costs", [0]), ("Labor Costs", [0]), ("Other Expenses", [0]),
        ("Equipment Costs", [0]), ("Overhead Costs", [0]), ("Total Costs", [0])],
        [0])) ∧
    ((∃ mat, np_random_triangular (100 - 10) 100 (100 + 10) 1 (fun _ => 0) = .ok mat ∧
      dfColumn [("Material Costs", [0]), ("Labor Costs", [0]), ("Other Expenses", [0]),
        ("Equipment Costs", [0]), ("Overhead Costs", [0]), ("Total Costs", [0])]
        "Material Costs" = mat) ∧
    (∃ lab, np_random_triangular (50 - 5) 50 (50 + 5) 1 (fun _ => 0) = .ok lab ∧
      dfColumn [("Material Costs", [0]), ("Labor Costs", [0]), ("Other Expenses", [0]),
        ("Equipment Costs", [0]), ("Overhead Costs", [0]), ("Total Costs", [0])]
        "Labor Costs" = lab) ∧
    (∃ oth, np_random_triangular (20 - 2) 20 (20 + 2) 1 (fun _ => 0) = .ok oth ∧
      dfColumn [("Material Costs", [0]), ("Labor Costs", [0]), ("Other Expenses", [0]),
        ("Equipment Costs", [0]), ("Overhead Costs", [0]), ("Total Costs", [0])]
        "Other Expenses" = oth) ∧
    dfColumn [("Material Costs", [0]), ("Labor Costs", [0]), ("Other Expenses", [0]),
        ("Equipment Costs", [0]), ("Overhead Costs", [0]), ("Total Costs", [0])]
        "Equipment Costs" = List.replicate (1:ℤ).toNat 0 ∧
    dfColumn [("Material Costs", [0]), ("Labor Costs", [0]), ("Other Expenses", [0]),
        ("Equipment Costs", [0]), ("Overhead Costs", [0]), ("Total Costs", [0])]
        "Overhead Costs" = List.replicate (1:ℤ).toNat 0 ∧
    dfColumn [("Material Costs", [0]), ("Labor Costs", [0]), ("Other Expenses", [0]),
        ("Equipment Costs", [0]), ("Overhead Costs", [0]), ("Total Costs", [0])]
        "Total Costs" = [0]) :=
  ⟨monte_carlo_simulation_example,
    C10_risk_factors_frame 100 10 50 5 20 2 0 0 0 0 0 (fun _ => 0) 1
      [("Material Costs", [0]), ("Labor Costs", [0]), ("Other Expenses", [0]),
        ("Equipment Costs", [0]), ("Overhead Costs", [0]), ("Total Costs", [0])] [0]
      monte_carlo_simulation_example⟩

/-- C8: the Statistics Engine's percentile computed by linear interpolation
between order statistics satisfies `percentile(X, 0) = min(X)` and
`percentile(X, 100) = max(X)` for every non-empty sample array `X`. -/
theorem C8_percentile_min_max (xs : List ℚ) (hne : xs ≠ []) :
    percentile xs 0 = listMin xs ∧ percentile xs 100 = listMax xs := by
  have hsort : List.Sorted (fun a b => a ≤ b)
      (List.insertionSort (fun a b => a ≤ b) xs) :=
    List.sorted_insertionSort _ xs
  have hperm : List.Perm (List.insertionSort (fun a b => a ≤ b) xs) xs :=
    List.perm_insertionSort _ xs
  have hpos : 0 < (List.insertionSort (fun a b => a ≤ b) xs).length := by
    rw [List.length_insertionSort]
    exact List.length_pos.mpr hne
  have hmem0 : (List.insertionSort (fun a b => a ≤ b) xs).getD 0 0 ∈ xs := by
    rw [List.getD_eq_getElem _ _ hpos]
    exact hperm.subset (List.getElem_mem _)
  have hlt : (List.insertionSort (fun a b => a ≤ b) xs).length - 1 <
      (List.insertionSort (fun a b => a ≤ b) xs).length := by omega
  have hmemL : (List.insertionSort (fun a b => a ≤ b) xs).getD
      ((List.insertionSort (fun a b => a ≤ b) xs).length - 1) 0 ∈ xs := by
    rw [List.getD_eq_getElem _ _ hlt]
    exact hperm.subset (List.getElem_mem _)
  have hmin := listMin_spec xs hne
  have hmax := listMax_spec xs hne
  constructor
  · rw [percentile_zero_eq]
    exact le_antisymm
      (sorted_getD_zero_le hsort _ (hperm.mem_iff.mpr hmin.1))
      (hmin.2 _ hmem0)
  · rw [percentile_hundred_eq xs hne]
    exact le_antisymm
      (hmax.2 _ hmemL)
      (sorted_le_getD_last _ hsort _ (hperm.mem_iff.mpr hmax.1))

/-- C8 witness: percentile at 0 and 100 on the concrete sample [3, 1, 2]. -/
theorem C8_witness :
    (([3, 1, 2] : List ℚ) ≠ []) ∧
    (percentile [3, 1, 2] 0 = listMin [3, 1, 2] ∧
      percentile [3, 1, 2] 100 = listMax [3, 1, 2]) :=
  ⟨by simp, C8_percentile_min_max [3, 1, 2] (by simp)⟩

end RiskAnalysis
